import Mathlib

/-!
Shallow embedding of the ServiceM8 / GoHighLevel integration server
(src/server.js and its sibling variants) together with proofs about the
reconciliation engine, the correlation-id codec, the dedup sets, the
persisted-state writer, the attachment relay temp-file handling and the
job-intake endpoint.

Strings of the JavaScript source are modelled by String (or List Char where
character-level reasoning is needed); timestamps by Nat; money amounts by Rat;
each network response consumed by a routine is an explicit input of the
routine, with Option or a dedicated sum encoding request failure.
-/

namespace IntegWithGhl

/-! ## Correlation-id codec

Embeds the marker extraction regex match of
src/server.js line 322, namely the pattern GHL Contact ID followed by a colon,
a space and one or more ASCII alphanumerics, first occurrence, and the
description builder of src/server.js lines 517-519. -/

/-- Lower-casing of the toLowerCase calls of the source, character by
character. -/
def strToLower (s : String) : String :=
  String.mk (s.data.map Char.toLower)

/-- Whitespace class stripped by the trim calls of the source. -/
def isWsChar (c : Char) : Bool :=
  c == ' ' || c == '\t' || c == '\n' || c == '\r'

/-- Both-ends whitespace strip of the trim calls of the source. -/
def trimChars (l : List Char) : List Char :=
  ((l.dropWhile isWsChar).reverse.dropWhile isWsChar).reverse

/-- String-level trim. -/
def strTrim (s : String) : String :=
  String.mk (trimChars s.data)

/-- Character class of the capture group a-zA-Z0-9 of the extraction regex. -/
def isAlnumChar (c : Char) : Bool :=
  (('a' ≤ c) && (c ≤ 'z')) || (('A' ≤ c) && (c ≤ 'Z')) || (('0' ≤ c) && (c ≤ '9'))

/-- Literal marker text of the regex and of the builder. -/
def ghlMarker : List Char := "GHL Contact ID: ".data

/-- Greedy run of alphanumeric characters, the capture group of the regex. -/
def takeAlnum : List Char → List Char
  | [] => []
  | c :: cs => if isAlnumChar c then c :: takeAlnum cs else []

/-- Tests whether the first list is a literal prefix of the second. -/
def startsWithChars : List Char → List Char → Bool
  | [], _ => true
  | _ :: _, [] => false
  | p :: ps, c :: cs => (p == c) && startsWithChars ps cs

/-- Scan for the first position where the whole regex matches: the marker
followed by at least one alphanumeric; returns the capture group. -/
def findMarkerCapture : List Char → Option (List Char)
  | [] => none
  | a :: rest =>
    if startsWithChars ghlMarker (a :: rest) then
      let cap := takeAlnum ((a :: rest).drop ghlMarker.length)
      if cap.isEmpty then findMarkerCapture rest else some cap
    else findMarkerCapture rest

/-- Extraction as the code uses it: the capture on a match, the empty string
otherwise (src/server.js lines 321-325). -/
def extractCorrelationId (desc : List Char) : List Char :=
  (findMarkerCapture desc).getD []

/-- String-level wrapper used by the payment routine on job_description. -/
def extractGhlContactId (s : String) : String :=
  String.mk (extractCorrelationId s.data)

/-- Description builder of src/server.js lines 517-519 (message branch and
plain branch). -/
def jobDescriptionWithMessage (message ghlContactId jobDescription : String) : String :=
  if message ≠ "" then
    "Message: " ++ message ++ "\n" ++ "GHL Contact ID: " ++ ghlContactId ++ "\n" ++ jobDescription
  else
    "GHL Contact ID: " ++ ghlContactId ++ "\n" ++ jobDescription

/-- Character-level view of the plain branch of the builder: the marker, the
correlation id, a newline, then the free text. -/
def buildJobDescription (id text : List Char) : List Char :=
  ghlMarker ++ id ++ '\n' :: text

/-! ## Data model

Records mirror the fields of the API payloads that the routines actually
consume. A JavaScript field that can be absent or empty is modelled by the
empty string, matching how the code only ever tests truthiness or applies
a default through logical-or. -/

/-- ServiceM8 companycontact record as consumed by the polling routines. -/
structure SmContact where
  uuid : String
  first : String
  last : String
  email : String
  phone : String
  mobile : String
  company_uuid : String
deriving DecidableEq

/-- GoHighLevel contact as returned by the contact search. -/
structure GhlContact where
  id : String
  email : String
deriving DecidableEq

/-- Billing address fields read from a ServiceM8 company record. -/
structure Address where
  address1 : String
  city : String
  state : String
  postalCode : String
deriving DecidableEq

/-- Address default when the company lookup fails or returns nothing. -/
def emptyAddress : Address := ⟨"", "", "", ""⟩

/-- ServiceM8 job record fields consumed by the payment routine. -/
structure Job where
  uuid : String
  status : String
  company_uuid : String
  edit_date : Nat
  job_description : String
deriving DecidableEq

/-- ServiceM8 jobpayment record fields consumed by the payment routine. -/
structure Payment where
  uuid : String
  job_uuid : String
  active : Int
  amount : Rat
  edit_date : Nat
deriving DecidableEq

/-- ServiceM8 jobactivity record; only end_date is consumed. -/
structure Activity where
  end_date : Option Nat
deriving DecidableEq

/-- In-memory dedup sets mirrored to state.json: processedJobs and
processedContacts of src/server.js lines 52-53. -/
structure SyncState where
  processedJobs : List String
  processedContacts : List String
deriving DecidableEq

/-- Set insertion as performed by the JavaScript Set add method. -/
def addKey (k : String) (s : List String) : List String :=
  if k ∈ s then s else k :: s

/-- Target-side and Source-side calls emitted while processing one entity.
Reads that merely feed later steps are inputs of the routines instead. -/
inductive Effect where
  | searchContacts (query : String)
  | createContact (firstName lastName name email phone : String) (addr : Address)
  | webhookPost (paymentUuid jobUuid clientEmail ghlContactId status : String)
  | webhookJob (jobUuid clientEmail ghlContactId status : String)
deriving DecidableEq

/-- Per-entity result of one reconciliation attempt. -/
inductive Outcome where
  | applied
  | skippedDup
  | skippedExisting
  | skippedIneligible
  | failed
deriving DecidableEq

/-! ## Contact-sync routine

Embedding of the loop body of checkNewContacts, src/server.js lines 133-222.
The GoHighLevel search response, the company lookup and the create call are
inputs: searchOk false models a thrown search request (caught at lines
171-176), ghlContacts is the parsed contact list of a successful search,
companyRes none models a failed company lookup (caught at lines 192-197,
degrading to empty address fields), and createRes none models a failed
create (caught at lines 216-221). -/

/-- Environment of one iteration of the contact loop. -/
structure ContactEnv where
  searchOk : Bool
  ghlContacts : List GhlContact
  companyRes : Option Address
  createRes : Option String
deriving DecidableEq

/-- Name composition of src/server.js line 141. -/
def contactName (c : SmContact) : String :=
  strTrim (c.first ++ " " ++ c.last)

/-- Existing-contact match of src/server.js lines 161-163: emails compared
lower-cased and trimmed on both sides. -/
def findExisting (contacts : List GhlContact) (email : String) : Option GhlContact :=
  contacts.find? (fun c => strTrim (strToLower c.email) == strTrim (strToLower email))

/-- One iteration of the checkNewContacts loop: returns the updated dedup
state, the Target-side calls made, and the per-entity outcome. -/
def processContact (st : SyncState) (c : SmContact) (env : ContactEnv) :
    SyncState × List Effect × Outcome :=
  if c.uuid ∈ st.processedContacts then
    (st, [], Outcome.skippedDup)
  else if c.email = "" ∧ contactName c = "" then
    ({ st with processedContacts := addKey c.uuid st.processedContacts },
     [], Outcome.skippedIneligible)
  else
    let searchFx : List Effect :=
      if c.email ≠ "" then [Effect.searchContacts c.email] else []
    let found : Option GhlContact :=
      if c.email ≠ "" ∧ env.searchOk then findExisting env.ghlContacts c.email else none
    match found with
    | some _ =>
      ({ st with processedContacts := addKey c.uuid st.processedContacts },
       searchFx, Outcome.skippedExisting)
    | none =>
      let addr := env.companyRes.getD emptyAddress
      let phone := if c.phone ≠ "" then c.phone else c.mobile
      let fx := searchFx ++
        [Effect.createContact c.first c.last (contactName c) c.email phone addr]
      match env.createRes with
      | some _ =>
        ({ st with processedContacts := addKey c.uuid st.processedContacts },
         fx, Outcome.applied)
      | none => (st, fx, Outcome.failed)

/-- Whole-batch run of the contact loop over the fetched contact list,
threading the dedup state and concatenating emitted calls in order. -/
def runContacts (st : SyncState) : List (SmContact × ContactEnv) → SyncState × List Effect
  | [] => (st, [])
  | (c, env) :: rest =>
    let r := processContact st c env
    let rr := runContacts r.fst rest
    (rr.fst, r.snd.fst ++ rr.snd)

/-! ## Payment-status routine

Embedding of the loop body of checkPaymentStatus, src/server.js lines
247-392. The window parameter stands for the twentyMinutesAgo lower bound
and cutoff for the targetDate of May 24 2025; both are recomputed outside
the loop. Each network response is an input: jobRes none models a thrown
job fetch (caught, continue), some none a job list with no first element,
activitiesRes none a thrown activity fetch (caught, falling back to the job
edit date), companyContacts none a thrown companycontact fetch (caught,
degrading to an empty client email), and webhookOk whether the webhook POST
returned a success status. -/

/-- Environment of one iteration of the payment loop. -/
structure PaymentEnv where
  jobRes : Option (Option Job)
  activitiesRes : Option (List Activity)
  companyContacts : Option (List SmContact)
  webhookOk : Bool
deriving DecidableEq

/-- Maximum activity end date, src/server.js lines 285-293: a strictly later
end date replaces the running maximum. -/
def maxEndDate (acts : List Activity) : Option Nat :=
  acts.foldl
    (fun m a =>
      match a.end_date with
      | some d =>
        match m with
        | none => some d
        | some m0 => if m0 < d then some d else some m0
      | none => m)
    none

/-- Completion date of a job, src/server.js lines 279-305: the maximum
activity end date, falling back to the job edit date when there are no
dated activities or the activity fetch failed. -/
def completionDate (job : Job) (activitiesRes : Option (List Activity)) : Nat :=
  match activitiesRes with
  | none => job.edit_date
  | some acts => (maxEndDate acts).getD job.edit_date

/-- Client email extraction of src/server.js lines 338-341: first contact
with a truthy email, trimmed then lower-cased, defaulting to empty. -/
def clientEmailOf (contacts : List SmContact) : String :=
  match contacts.find? (fun c => c.email != "") with
  | some c => strToLower (strTrim c.email)
  | none => ""

/-- GHL contact id extraction step of src/server.js lines 320-325: performed
only on a truthy description, empty otherwise. -/
def jobGcid (job : Job) : String :=
  if job.job_description ≠ "" then extractGhlContactId job.job_description else ""

/-- Client email visible to the payment loop, src/server.js lines 333-344:
the extraction when the companycontact fetch succeeded, empty when it threw. -/
def envClientEmail (env : PaymentEnv) : String :=
  match env.companyContacts with
  | some cs => clientEmailOf cs
  | none => ""

/-- Contact key of src/server.js line 347: the extracted GHL contact id if
non-empty, otherwise the client email. -/
def paymentKey (job : Job) (env : PaymentEnv) : String :=
  if jobGcid job ≠ "" then jobGcid job else envClientEmail env

/-- Contact key as a function of the environment alone. -/
def paymentContactKey (env : PaymentEnv) : String :=
  match env.jobRes with
  | some (some job) => paymentKey job env
  | _ => ""

/-- One iteration of the checkPaymentStatus loop: returns the updated dedup
state, the Target-side calls made, and the per-entity outcome. -/
def processPayment (window cutoff : Nat) (st : SyncState) (p : Payment)
    (env : PaymentEnv) : SyncState × List Effect × Outcome :=
  if p.uuid ∈ st.processedJobs then
    (st, [], Outcome.skippedDup)
  else
    match env.jobRes with
    | none => (st, [], Outcome.failed)
    | some none => (st, [], Outcome.skippedIneligible)
    | some (some job) =>
      if strToLower job.status ≠ "completed" then (st, [], Outcome.skippedIneligible)
      else if ¬ cutoff ≤ completionDate job env.activitiesRes then
        (st, [], Outcome.skippedIneligible)
      else if job.company_uuid = "" then (st, [], Outcome.skippedIneligible)
      else if paymentKey job env ≠ "" ∧ paymentKey job env ∈ st.processedContacts then
        (st, [], Outcome.skippedDup)
      else if p.active = 1 ∧ 0 < p.amount ∧ window < p.edit_date then
        let fx := [Effect.webhookPost p.uuid p.job_uuid (envClientEmail env)
          (jobGcid job) "Invoice Paid"]
        if env.webhookOk then
          ({ processedJobs := addKey p.uuid st.processedJobs,
             processedContacts :=
               if paymentKey job env ≠ "" then addKey (paymentKey job env) st.processedContacts
               else st.processedContacts },
           fx, Outcome.applied)
        else (st, fx, Outcome.failed)
      else (st, [], Outcome.skippedIneligible)

/-! ## Job-polling routine of the sibling variant

Embedding of the loop body of checkNewJobs, src/server.js lines 949-1030.
Unlike the other routines, the per-job payment fetch (lines 960-968) and the
companycontact fetch (lines 981-989) are not wrapped in their own try/catch:
a thrown request propagates to the try of the whole routine, which abandons
the loop and skips the saveState call. The embedding returns an Except to
record that propagation. -/

/-- Environment of one iteration of the checkNewJobs loop. -/
structure JobEnv where
  paymentsRes : Option (List Payment)
  companyContacts : Option (List SmContact)
  webhookOk : Bool
deriving DecidableEq

/-- One iteration of the checkNewJobs loop: error means an uncaught request
failure that aborts the whole batch. Note that the job uuid is added to the
dedup set after the webhook try/catch, hence also when the webhook failed. -/
def processJob (st : SyncState) (j : Job) (env : JobEnv) :
    Except Unit (SyncState × List Effect) :=
  if j.uuid ∈ st.processedJobs then Except.ok (st, [])
  else
    match env.paymentsRes with
    | none => Except.error ()
    | some payments =>
      if payments.isEmpty then Except.ok (st, [])
      else
        match env.companyContacts with
        | none => Except.error ()
        | some cs =>
          let fx := [Effect.webhookJob j.uuid (clientEmailOf cs) (jobGcid j) "Invoice Paid"]
          Except.ok
            ({ st with processedJobs := addKey j.uuid st.processedJobs }, fx)

/-! ## Badge-gated payment variant

Embedding of the loop body of checkPaymentStatus in src/unnamed/part_003
lines 255-363: eligibility there is a filter of paid payments (active flag,
positive amount, non-placeholder timestamp, lines 279-281) and a Review
Request badge on the job (lines 296-300); the job uuid enters the dedup set
only after a successful webhook POST (line 353). -/

/-- Payment fields consumed by the paid-payment filter of the badge variant. -/
structure PaymentV3 where
  uuid : String
  active : Int
  amount : Rat
  timestamp : String
deriving DecidableEq

/-- Job fields consumed by the badge variant. -/
structure JobV3 where
  uuid : String
  company_uuid : String
  job_description : String
  badges : List String
deriving DecidableEq

/-- Paid-payment filter of src/unnamed/part_003 lines 279-281. -/
def isPaidPayment (p : PaymentV3) : Bool :=
  p.active == 1 && decide ((0 : Rat) < p.amount) && p.timestamp != "" &&
    p.timestamp != "0000-00-00 00:00:00"

/-- GHL contact id extraction of the badge variant, part_003 lines 325-329. -/
def jobV3Gcid (j : JobV3) : String :=
  if j.job_description ≠ "" then extractGhlContactId j.job_description else ""

/-- One iteration of the badge-variant payment loop over a job, with the
payment list, the company contacts and the webhook result as inputs. -/
def processJobBadge (badgeUuid : String) (st : SyncState) (j : JobV3)
    (payments : List PaymentV3) (cc : List SmContact) (webhookOk : Bool) :
    SyncState × List Effect × Outcome :=
  if j.uuid ∈ st.processedJobs then (st, [], Outcome.skippedDup)
  else
    let paid := payments.filter isPaidPayment
    if paid.isEmpty then (st, [], Outcome.skippedIneligible)
    else if j.badges.contains badgeUuid then
      let fx := [Effect.webhookJob j.uuid (clientEmailOf cc) (jobV3Gcid j) "Invoice Paid"]
      if webhookOk then
        ({ st with processedJobs := addKey j.uuid st.processedJobs }, fx, Outcome.applied)
      else (st, fx, Outcome.failed)
    else (st, [], Outcome.skippedIneligible)

/-- Whole-batch run of checkNewJobs. The first component is the dedup state
handed to saveState at the end of the cycle: none when an uncaught per-job
failure aborted the cycle before saveState, so nothing of the cycle is
persisted. -/
def runJobs (st : SyncState) : List (Job × JobEnv) → Option SyncState × List Effect
  | [] => (some st, [])
  | (j, env) :: rest =>
    match processJob st j env with
    | Except.error _ => (none, [])
    | Except.ok r =>
      let rr := runJobs r.fst rest
      (rr.fst, r.snd ++ rr.snd)

/-! ## State store

Embedding of saveState, src/server.js lines 74-88: a single direct
fsPromises.writeFile of the serialized state to state.json. The embedding
records the sequence of filesystem operations the function issues, so that
the write-to-temp-then-rename contract of the specification can be stated
against it. -/

/-- Filesystem operations relevant to the state store. -/
inductive FsOp where
  | writeFile (path : String) (content : String)
  | rename (src dst : String)
deriving DecidableEq

/-- Path of the persisted state, src/server.js line 55. -/
def stateFile : String := "state.json"

/-- JSON array of strings as produced by JSON.stringify on an array. -/
def jsonStringArray (l : List String) : String :=
  "[" ++ String.intercalate "," (l.map (fun s => "\x22" ++ s ++ "\x22")) ++ "]"

/-- Serialization of the persisted state record, src/server.js lines 78-83. -/
def serializeState (cursor : Nat) (st : SyncState) : String :=
  "\x7b\x22lastPollTimestamp\x22:" ++ toString cursor ++
  ",\x22processedJobs\x22:" ++ jsonStringArray st.processedJobs ++
  ",\x22processedContacts\x22:" ++ jsonStringArray st.processedContacts ++ "\x7d"

/-- Filesystem operations issued by saveState: one direct write of the whole
serialized record to state.json, nothing else. -/
def saveStateOps (cursor : Nat) (st : SyncState) : List FsOp :=
  [FsOp.writeFile stateFile (serializeState cursor st)]

/-- Modelled from the spec: the save operation is atomic when the state file
is never written in place and is instead installed by renaming a fully
written temporary file onto it (write-to-temp-then-rename). -/
def atomicReplace (ops : List FsOp) : Bool :=
  ops.all
    (fun op =>
      match op with
      | FsOp.writeFile p _ => p != stateFile
      | FsOp.rename _ _ => true) &&
  ops.any
    (fun op =>
      match op with
      | FsOp.rename _ dst => dst == stateFile
      | FsOp.writeFile _ _ => false)

/-! ## Attachment relay

Embedding of the per-photo loop of the job-intake endpoint. Two variants
exist in the repository: the main one, src/server.js lines 610-706, where the
temp-file unlink is commented out (lines 700-702, skip cleanup temporarily),
and the sibling variant, src/unnamed/part_000 lines 603-708, which unlinks
the temp file in a finally block on every exit path. -/

/-- Filesystem and upload operations of one photo iteration. -/
inductive PhotoFx where
  | tempWrite (path : String)
  | tempUnlink (path : String)
  | postAttachment (jobUuid name fileType : String)
  | putAttachmentFile (uuid : String)
  | postNote (jobUuid : String)
deriving DecidableEq

/-- Substring scan, used to embed the content-type regex test. -/
def containsChars (pat : List Char) : List Char → Bool
  | [] => pat.isEmpty
  | a :: rest => startsWithChars pat (a :: rest) || containsChars pat rest

/-- Content-type allow-list of src/server.js line 643: case-insensitive
match of image png, jpeg or jpg anywhere in the header value. -/
def isImageContentType (ct : String) : Bool :=
  containsChars "image/png".data (strToLower ct).data ||
    containsChars "image/jpeg".data (strToLower ct).data ||
    containsChars "image/jpg".data (strToLower ct).data

/-- Environment of one iteration of the main-variant photo loop. -/
structure PhotoEnv where
  primaryOk : Bool
  fallbackOk : Bool
  contentType : String
  downloadedSize : Nat
  accessOk : Bool
  attachRes : Option String
  uploadOk : Bool
deriving DecidableEq

/-- One iteration of the photo loop of src/server.js lines 610-706. Every
failure is caught by the per-photo catch and the loop continues; no path
unlinks the temporary file. -/
def processPhoto (jobUuid filename fileType : String) (env : PhotoEnv) : List PhotoFx :=
  let tempPath := "Uploads/" ++ filename
  if ¬ (env.primaryOk ∨ env.fallbackOk) then []
  else if ¬ isImageContentType env.contentType then []
  else
    let fx0 := [PhotoFx.tempWrite tempPath]
    if env.downloadedSize = 0 then fx0
    else if ¬ env.accessOk then fx0
    else
      match env.attachRes with
      | none => fx0 ++ [PhotoFx.postAttachment jobUuid filename fileType]
      | some auuid =>
        fx0 ++ [PhotoFx.postAttachment jobUuid filename fileType,
                PhotoFx.putAttachmentFile auuid]

/-- Environment of one iteration of the sibling-variant photo loop. -/
structure RelayPhotoEnv where
  headOk : Bool
  contentType : String
  downloadOk : Bool
  noteOk : Bool
  attachOk : Bool
deriving DecidableEq

/-- One iteration of the photo loop of src/unnamed/part_000 lines 603-708:
once tempPath is assigned, the finally block unlinks it on every exit path,
success or failure. -/
def relayProcessPhoto (jobUuid companyUuid filename : String) (env : RelayPhotoEnv) :
    List PhotoFx :=
  let tempPath := "uploads/" ++ filename
  if ¬ env.headOk then []
  else if ¬ isImageContentType env.contentType then []
  else if ¬ env.downloadOk then [PhotoFx.tempUnlink tempPath]
  else
    let fx0 := [PhotoFx.tempWrite tempPath, PhotoFx.postNote jobUuid]
    if ¬ env.noteOk then fx0 ++ [PhotoFx.tempUnlink tempPath]
    else
      let fx1 := fx0 ++ [PhotoFx.postAttachment companyUuid filename env.contentType]
      fx1 ++ [PhotoFx.tempUnlink tempPath]

/-! ## Job-intake endpoint

Embedding of the POST /ghl-create-job handler, src/server.js lines 414-714,
up to and excluding the photo loop, whose failures are caught per photo and
never change the response. The debounce map processedGhlContactIds (line 56)
is threaded explicitly; every awaited ServiceM8 or GoHighLevel request is an
input, with none modelling a thrown request. An unguarded throw reaches the
outer catch and produces the 500 response of lines 710-713. -/

/-- Inbound request body fields consumed by the handler. -/
structure JobRequest where
  firstName : String
  lastName : String
  email : String
  phone : String
  address : String
  jobDescription : String
  ghlContactId : String
deriving DecidableEq

/-- ServiceM8 company record fields consumed by the duplicate-client check. -/
structure Company where
  uuid : String
  email : String
  name : String
deriving DecidableEq

/-- Source-side writes issued by the intake handler. -/
inductive IntakeFx where
  | createCompany (name : String)
  | createCompanyContact (companyUuid first last email phone : String)
  | createJob (companyUuid queueUuid address description : String)
  | createJobContact (jobUuid first last email phone : String)
deriving DecidableEq

/-- HTTP response of the intake handler. -/
inductive IntakeResp where
  | badRequest
  | skippedDuplicate
  | serverError
  | created (jobUuid : String)
deriving DecidableEq

/-- Environment of one invocation of the intake handler. -/
structure IntakeEnv where
  queueUuid : Option String
  companies : Option (List Company)
  companyCreateRes : Option String
  contactCreateOk : Bool
  message : String
  jobCreateRes : Option String
  jobContactOk : Bool
deriving DecidableEq

/-- Debounce window of src/server.js line 427, in milliseconds. -/
def debounceMs : Nat := 5000

/-- Lookup in the debounce map. -/
def mapGet (m : List (String × Nat)) (k : String) : Option Nat :=
  (m.find? (fun kv => kv.fst == k)).map Prod.snd

/-- Insertion into the debounce map, replacing any previous entry. -/
def mapSet (m : List (String × Nat)) (k : String) (v : Nat) : List (String × Nat) :=
  (k, v) :: m.filter (fun kv => kv.fst != k)

/-- Job-creation phase of the handler, src/server.js lines 481-541: fetch of
the message custom field (failure degrades to an empty message), description
build, job create and job-contact create. -/
def intakeJobPhase (r : JobRequest) (env : IntakeEnv) (qUuid companyUuid : String)
    (fxc : List IntakeFx) : IntakeResp × List IntakeFx :=
  let desc := jobDescriptionWithMessage env.message r.ghlContactId r.jobDescription
  let fx3 := fxc ++ [IntakeFx.createJob companyUuid qUuid r.address desc]
  match env.jobCreateRes with
  | none => (IntakeResp.serverError, fx3)
  | some jUuid =>
    let fx4 := fx3 ++ [IntakeFx.createJobContact jUuid r.firstName r.lastName r.email r.phone]
    if ¬ env.jobContactOk then (IntakeResp.serverError, fx4)
    else (IntakeResp.created jUuid, fx4)

/-- Source-side work of the handler after the debounce gate, src/server.js
lines 434-541: queue lookup, duplicate-client search by email or name, client
creation when absent, then the job phase. -/
def ghlCreateJobWork (r : JobRequest) (env : IntakeEnv) : IntakeResp × List IntakeFx :=
  match env.queueUuid with
  | none => (IntakeResp.serverError, [])
  | some qUuid =>
    match env.companies with
    | none => (IntakeResp.serverError, [])
    | some companies =>
      let fullName := strTrim (strToLower (r.firstName ++ " " ++ r.lastName))
      let matching := companies.find? (fun co =>
        strTrim (strToLower co.email) == strTrim (strToLower r.email) ||
          strTrim (strToLower co.name) == fullName)
      match matching with
      | some co => intakeJobPhase r env qUuid co.uuid []
      | none =>
        let fx1 := [IntakeFx.createCompany fullName]
        match env.companyCreateRes with
        | none => (IntakeResp.serverError, fx1)
        | some cUuid =>
          let fx2 := fx1 ++
            [IntakeFx.createCompanyContact cUuid r.firstName r.lastName r.email r.phone]
          if ¬ env.contactCreateOk then (IntakeResp.serverError, fx2)
          else intakeJobPhase r env qUuid cUuid fx2

/-- Whole intake handler: field validation (line 419), debounce check and
map insertion (lines 425-431), then the Source-side work. The map insertion
happens before any Source-side work is attempted. -/
def ghlCreateJob (m : List (String × Nat)) (now : Nat) (r : JobRequest)
    (env : IntakeEnv) : List (String × Nat) × IntakeResp × List IntakeFx :=
  if r.firstName = "" ∨ r.lastName = "" ∨ r.email = "" ∨ r.ghlContactId = "" then
    (m, IntakeResp.badRequest, [])
  else
    let dup : Bool :=
      match mapGet m r.ghlContactId with
      | some t => t != 0 && now - t < debounceMs
      | none => false
    if dup then (m, IntakeResp.skippedDuplicate, [])
    else
      let m2 := mapSet m r.ghlContactId now
      let w := ghlCreateJobWork r env
      (m2, w.fst, w.snd)

/-! ## Observation helpers and concrete fixtures -/

/-- Tests whether a Target-side contact create call appears in an effect
list. -/
def hasCreate (fx : List Effect) : Bool :=
  fx.any fun e =>
    match e with
    | Effect.createContact _ _ _ _ _ _ => true
    | _ => false

/-- Tests whether a temp-file unlink appears in a photo effect list. -/
def hasUnlink (fx : List PhotoFx) : Bool :=
  fx.any fun e =>
    match e with
    | PhotoFx.tempUnlink _ => true
    | _ => false

/-- Tests whether a temp-file write appears in a photo effect list. -/
def hasTempWrite (fx : List PhotoFx) : Bool :=
  fx.any fun e =>
    match e with
    | PhotoFx.tempWrite _ => true
    | _ => false

/-- Empty dedup state of a cold start. -/
def stEmpty : SyncState := ⟨[], []⟩

/-- Fixture: a ServiceM8 contact with name and email. -/
def contactEx : SmContact := ⟨"c1", "Jane", "Doe", "jane@x.com", "555", "", "co1"⟩

/-- Fixture: environment where the GHL search succeeds with no match and
the create succeeds. -/
def contactEnvEx : ContactEnv :=
  ⟨true, [], some ⟨"1 Main St", "Brisbane", "QLD", "4000"⟩, some "ghl1"⟩

/-- Fixture: a second contact whose create call fails after a no-match
search. -/
def contactFailEx : SmContact := ⟨"c2", "Bob", "Roe", "bob@x.com", "", "", "co2"⟩

/-- Fixture: environment with a successful empty search and a failing
create. -/
def contactEnvFailEx : ContactEnv := ⟨true, [], none, none⟩

/-- Fixture: a third contact processed after the failing one. -/
def contactEx3 : SmContact := ⟨"c3", "Amy", "Poe", "amy@x.com", "", "", "co3"⟩

/-- Fixture: environment where the GHL search throws while a matching
Target contact exists, and the create succeeds. -/
def contactEnvSearchErrEx : ContactEnv :=
  ⟨false, [⟨"g9", "jane@x.com"⟩], none, some "ghl2"⟩

/-- Fixture: environment whose successful search returns a contact matching
the fixture email up to case and surrounding whitespace. -/
def contactEnvMatchEx : ContactEnv :=
  ⟨true, [⟨"g1", " JANE@x.com "⟩], none, some "ghl3"⟩

/-- Fixture: a contact with a name but no email. -/
def contactNoEmailEx : SmContact := ⟨"c4", "Pat", "Lee", "", "", "", "co4"⟩

/-- Fixture: an eligible payment. -/
def paymentEx : Payment := ⟨"p1", "j1", 1, 50, 100⟩

/-- Fixture: the same payment with the active flag cleared. -/
def paymentInactiveEx : Payment := ⟨"p1", "j1", 0, 50, 100⟩

/-- Fixture: a completed job whose description embeds a correlation id. -/
def jobEx : Job := ⟨"j1", "Completed", "co1", 90, "GHL Contact ID: ghlA\nfix sink"⟩

/-- Fixture: payment environment with the job found, one dated activity,
a company contact carrying an email, and a succeeding webhook. -/
def paymentEnvEx : PaymentEnv :=
  ⟨some (some jobEx), some [⟨some 95⟩], some [⟨"cc1", "", "", "Bob@X.com ", "", "", "co1"⟩], true⟩

/-- Fixture: jobs of a checkNewJobs batch. -/
def jobA : Job := ⟨"ja", "Quote", "co1", 100, ""⟩

/-- Fixture: second job of the batch. -/
def jobB : Job := ⟨"jb", "Quote", "co1", 100, ""⟩

/-- Fixture: third job of the batch. -/
def jobC : Job := ⟨"jc", "Quote", "co1", 100, ""⟩

/-- Fixture: checkNewJobs environment whose fetches succeed. -/
def jobEnvOkEx : JobEnv :=
  ⟨some [paymentEx], some [⟨"cc1", "", "", "bob@x.com", "", "", "co1"⟩], true⟩

/-- Fixture: checkNewJobs environment whose per-job payment fetch throws. -/
def jobEnvErrEx : JobEnv := ⟨none, some [], true⟩

/-- Fixture: checkNewJobs environment whose webhook POST fails. -/
def jobEnvWebhookFailEx : JobEnv :=
  ⟨some [paymentEx], some [⟨"cc1", "", "", "bob@x.com", "", "", "co1"⟩], false⟩

/-- Fixture: badge-variant job without the review badge. -/
def jobV3NoBadgeEx : JobV3 := ⟨"j5", "co5", "", ["other-badge"]⟩

/-- Fixture: a paid badge-variant payment. -/
def paymentV3Ex : PaymentV3 := ⟨"pv1", 1, 120, "2025-06-01 10:00:00"⟩

/-- Fixture: intake request with all required fields. -/
def reqEx : JobRequest :=
  ⟨"Jane", "Doe", "jane@x.com", "555", "1 Main St", "fix sink", "ghlX1"⟩

/-- Fixture: intake environment whose queue lookup fails. -/
def intakeEnvQFailEx : IntakeEnv :=
  ⟨none, some [], some "co9", true, "", some "job9", true⟩

/-- Fixture: intake environment where every step succeeds. -/
def intakeEnvOkEx : IntakeEnv :=
  ⟨some "q1", some [], some "co9", true, "", some "job9", true⟩

/-- Fixture: photo environment of a fully successful download and upload. -/
def photoEnvOkEx : PhotoEnv := ⟨true, true, "image/jpeg", 2048, true, some "a1", true⟩

/-! ## Shared lemmas -/

theorem mem_addKey_self (k : String) (s : List String) : k ∈ addKey k s := by
  unfold addKey
  split
  · assumption
  · exact List.mem_cons_self _ _

theorem addKey_subset_cons (k : String) (s : List String) : addKey k s ⊆ k :: s := by
  unfold addKey
  split
  · exact List.subset_cons_self _ _
  · exact List.Subset.refl _

theorem startsWithChars_append (p t : List Char) : startsWithChars p (p ++ t) = true := by
  induction p with
  | nil => rfl
  | cons a ps ih => simp [startsWithChars, ih]

theorem takeAlnum_all_append (xs : List Char) (y : Char) (ys : List Char)
    (hxs : ∀ c ∈ xs, isAlnumChar c = true) (hy : isAlnumChar y = false) :
    takeAlnum (xs ++ y :: ys) = xs := by
  induction xs with
  | nil => simp [takeAlnum, hy]
  | cons a as ih =>
    have ha := hxs a (List.mem_cons_self _ _)
    simp only [List.cons_append, takeAlnum, ha, if_true]
    exact congrArg (a :: ·) (ih fun c hc => hxs c (List.mem_cons_of_mem _ hc))

theorem findMarkerCapture_cons (a : Char) (rest : List Char) :
    findMarkerCapture (a :: rest) =
      if startsWithChars ghlMarker (a :: rest) then
        (if (takeAlnum ((a :: rest).drop ghlMarker.length)).isEmpty then
          findMarkerCapture rest
        else some (takeAlnum ((a :: rest).drop ghlMarker.length)))
      else findMarkerCapture rest := by
  simp [findMarkerCapture]

theorem findMarkerCapture_at_start (t : List Char)
    (h : (takeAlnum t).isEmpty = false) :
    findMarkerCapture (ghlMarker ++ t) = some (takeAlnum t) := by
  have hpre : startsWithChars ghlMarker (ghlMarker ++ t) = true :=
    startsWithChars_append _ _
  have hdrop : (ghlMarker ++ t).drop ghlMarker.length = t := List.drop_left _ _
  have hco : ghlMarker ++ t = 'G' :: ("HL Contact ID: ".data ++ t) := rfl
  rw [hco] at hpre hdrop ⊢
  rw [findMarkerCapture_cons, hpre, if_pos rfl, hdrop, h]
  simp

/-! ## Claim C2: correlation-id round trip -/

/-- Claim C2, counterexample: the round trip fails as universally stated.
For the non-empty correlation id a-b and a free text without the marker,
the extraction regex captures only the alphanumeric run a, because its
capture group stops at the first non-alphanumeric character of the id. -/
theorem roundtrip_fails_on_hyphen_id :
    extractCorrelationId (buildJobDescription "a-b".data "fix sink".data) = "a".data ∧
    "a".data ≠ "a-b".data := by
  constructor
  · decide
  · decide

/-- Claim C2, amended: for every non-empty correlation id consisting only
of ASCII alphanumerics, and every free text, extracting the correlation id
from a description built by the builder returns exactly the id. -/
theorem extract_build_roundtrip (id text : List Char) (hne : id ≠ [])
    (hal : ∀ c ∈ id, isAlnumChar c = true) :
    extractCorrelationId (buildJobDescription id text) = id := by
  have htake : takeAlnum (id ++ '\n' :: text) = id :=
    takeAlnum_all_append id '\n' text hal (by decide)
  have hempty : (takeAlnum (id ++ '\n' :: text)).isEmpty = false := by
    rw [htake]
    cases id with
    | nil => exact absurd rfl hne
    | cons a l => rfl
  unfold extractCorrelationId buildJobDescription
  rw [List.append_assoc, findMarkerCapture_at_start _ hempty, htake]
  rfl

/-- Claim C2, witness: the amended round trip evaluated on the concrete
alphanumeric id abc123 and a marker-free text. -/
theorem extract_build_roundtrip_witness :
    extractCorrelationId (buildJobDescription "abc123".data "please fix the sink".data) =
      "abc123".data :=
  extract_build_roundtrip "abc123".data "please fix the sink".data (by decide) (by decide)

/-! ## Lemmas on the contact-sync routine -/

theorem processContact_mem (st : SyncState) (c : SmContact) (env : ContactEnv)
    (h : c.uuid ∈ st.processedContacts) :
    processContact st c env = (st, [], Outcome.skippedDup) := by
  simp [processContact, h]

theorem processContact_applied_mem (st : SyncState) (c : SmContact) (env : ContactEnv)
    (h : (processContact st c env).snd.snd = Outcome.applied) :
    c.uuid ∈ (processContact st c env).fst.processedContacts := by
  by_cases h1 : c.uuid ∈ st.processedContacts
  · simp [processContact, h1] at h
  · by_cases h2 : c.email = "" ∧ contactName c = ""
    · simp [processContact, h1, h2] at h
    · rcases hfound : (if c.email ≠ "" ∧ env.searchOk then
          findExisting env.ghlContacts c.email else none) with _ | g
      · rcases hcr : env.createRes with _ | cid
        · simp [processContact, h1, h2, hfound, hcr] at h
        · simp [processContact, h1, h2, hfound, hcr]
          exact mem_addKey_self _ _
      · simp [processContact, h1, h2, hfound] at h

/-! ## Lemmas on the payment routine -/

theorem processPayment_mem (window cutoff : Nat) (st : SyncState) (p : Payment)
    (env : PaymentEnv) (h : p.uuid ∈ st.processedJobs) :
    processPayment window cutoff st p env = (st, [], Outcome.skippedDup) := by
  simp [processPayment, h]

/-- Exhaustive shape of one payment iteration: either a skip or failure that
returns the state untouched with no Target-side call, or the full check
chain passed and the webhook was POSTed, failing or applying. -/
theorem processPayment_shape (window cutoff : Nat) (st : SyncState) (p : Payment)
    (env : PaymentEnv) :
    (∃ o, processPayment window cutoff st p env = (st, [], o) ∧ o ≠ Outcome.applied) ∨
    (∃ job, env.jobRes = some (some job) ∧
      p.uuid ∉ st.processedJobs ∧
      strToLower job.status = "completed" ∧
      cutoff ≤ completionDate job env.activitiesRes ∧
      job.company_uuid ≠ "" ∧
      ¬(paymentKey job env ≠ "" ∧ paymentKey job env ∈ st.processedContacts) ∧
      (p.active = 1 ∧ 0 < p.amount ∧ window < p.edit_date) ∧
      ((env.webhookOk = false ∧
        processPayment window cutoff st p env =
          (st, [Effect.webhookPost p.uuid p.job_uuid (envClientEmail env)
            (jobGcid job) "Invoice Paid"], Outcome.failed)) ∨
       (env.webhookOk = true ∧
        processPayment window cutoff st p env =
          (⟨addKey p.uuid st.processedJobs,
            if paymentKey job env ≠ "" then addKey (paymentKey job env) st.processedContacts
            else st.processedContacts⟩,
           [Effect.webhookPost p.uuid p.job_uuid (envClientEmail env)
             (jobGcid job) "Invoice Paid"], Outcome.applied)))) := by
  by_cases h1 : p.uuid ∈ st.processedJobs
  · exact Or.inl ⟨Outcome.skippedDup, by simp [processPayment, h1], by decide⟩
  · rcases hj : env.jobRes with _ | (_ | job)
    · exact Or.inl ⟨Outcome.failed, by simp [processPayment, h1, hj], by decide⟩
    · exact Or.inl ⟨Outcome.skippedIneligible, by simp [processPayment, h1, hj], by decide⟩
    · by_cases hs : strToLower job.status = "completed"
      · by_cases hcut : cutoff ≤ completionDate job env.activitiesRes
        · by_cases hcu : job.company_uuid = ""
          · exact Or.inl ⟨Outcome.skippedIneligible,
              by simp [processPayment, h1, hj, hs, hcut, hcu], by decide⟩
          · by_cases hck : paymentKey job env ≠ "" ∧ paymentKey job env ∈ st.processedContacts
            · exact Or.inl ⟨Outcome.skippedDup,
                by simp [processPayment, h1, hj, hs, hcut, hcu, hck], by decide⟩
            · by_cases helig : p.active = 1 ∧ 0 < p.amount ∧ window < p.edit_date
              · cases hw : env.webhookOk
                · refine Or.inr ⟨job, rfl, h1, hs, hcut, hcu, hck, helig, Or.inl ⟨rfl, ?_⟩⟩
                  simp [processPayment, h1, hj, hs, hcut, hcu, hck, helig, hw]
                · refine Or.inr ⟨job, rfl, h1, hs, hcut, hcu, hck, helig, Or.inr ⟨rfl, ?_⟩⟩
                  simp [processPayment, h1, hj, hs, hcut, hcu, hck, helig, hw]
              · exact Or.inl ⟨Outcome.skippedIneligible,
                  by simp [processPayment, h1, hj, hs, hcut, hcu, hck, helig], by decide⟩
        · exact Or.inl ⟨Outcome.skippedIneligible,
            by simp [processPayment, h1, hj, hs, hcut], by decide⟩
      · exact Or.inl ⟨Outcome.skippedIneligible,
          by simp [processPayment, h1, hj, hs], by decide⟩

/-! ## Claim C1: applied entities enter their dedup set and every later
occurrence is skipped by the membership check with no Target-side call -/

/-- Claim C1: when a contact iteration applies (a Target contact is
created), the contact uuid is in the resulting contacts dedup set and any
later iteration over the same contact, whatever its environment, returns
the state unchanged with no effect; likewise, when a payment iteration
applies (the webhook POST succeeded), the payment uuid is in the resulting
jobs dedup set and any later iteration over the same payment under any
window, cutoff and environment is a no-op skip. -/
theorem applied_enters_dedup_then_skipped
    (st : SyncState) (c : SmContact) (cenv : ContactEnv)
    (window cutoff : Nat) (p : Payment) (penv : PaymentEnv)
    (hc : (processContact st c cenv).snd.snd = Outcome.applied)
    (hp : (processPayment window cutoff st p penv).snd.snd = Outcome.applied) :
    c.uuid ∈ (processContact st c cenv).fst.processedContacts ∧
    (∀ cenv₂, processContact (processContact st c cenv).fst c cenv₂ =
      ((processContact st c cenv).fst, [], Outcome.skippedDup)) ∧
    p.uuid ∈ (processPayment window cutoff st p penv).fst.processedJobs ∧
    (∀ w₂ k₂ penv₂,
      processPayment w₂ k₂ (processPayment window cutoff st p penv).fst p penv₂ =
        ((processPayment window cutoff st p penv).fst, [], Outcome.skippedDup)) := by
  have hcm := processContact_applied_mem st c cenv hc
  have hpm : p.uuid ∈ (processPayment window cutoff st p penv).fst.processedJobs := by
    rcases processPayment_shape window cutoff st p penv with
      ⟨o, heq, hne⟩ | ⟨job, _, _, _, _, _, _, _, hcase⟩
    · rw [heq] at hp
      exact absurd hp hne
    · rcases hcase with ⟨_, heq⟩ | ⟨_, heq⟩
      · rw [heq] at hp
        exact Outcome.noConfusion hp
      · rw [heq]
        exact mem_addKey_self _ _
  exact ⟨hcm, fun cenv₂ => processContact_mem _ c cenv₂ hcm, hpm,
    fun w₂ k₂ penv₂ => processPayment_mem w₂ k₂ _ p penv₂ hpm⟩

/-- Claim C1, witness: the concrete applied contact and applied payment of
the fixtures land in their dedup sets and a concrete re-run of each is the
no-op skip. -/
theorem applied_enters_dedup_then_skipped_witness :
    "c1" ∈ (processContact stEmpty contactEx contactEnvEx).fst.processedContacts ∧
    processContact (processContact stEmpty contactEx contactEnvEx).fst contactEx contactEnvEx =
      ((processContact stEmpty contactEx contactEnvEx).fst, [], Outcome.skippedDup) ∧
    "p1" ∈ (processPayment 50 90 stEmpty paymentEx paymentEnvEx).fst.processedJobs ∧
    processPayment 50 90 (processPayment 50 90 stEmpty paymentEx paymentEnvEx).fst
        paymentEx paymentEnvEx =
      ((processPayment 50 90 stEmpty paymentEx paymentEnvEx).fst, [], Outcome.skippedDup) := by
  have h := applied_enters_dedup_then_skipped stEmpty contactEx contactEnvEx
    50 90 paymentEx paymentEnvEx (by decide) (by decide)
  exact ⟨h.1, h.2.1 contactEnvEx, h.2.2.1, h.2.2.2 50 90 paymentEnvEx⟩

/-! ## Claim C4: eligibility is an AND of checks; failing one check skips the
payment without side effects and without entering the dedup set -/

theorem processPayment_skip_of_failed_check (window cutoff : Nat) (st : SyncState)
    (p : Payment) (penv : PaymentEnv) (job : Job)
    (hj : penv.jobRes = some (some job))
    (hfail : ¬(p.active = 1 ∧ 0 < p.amount ∧ window < p.edit_date ∧
      strToLower job.status = "completed" ∧
      cutoff ≤ completionDate job penv.activitiesRes)) :
    (processPayment window cutoff st p penv).fst = st ∧
    (processPayment window cutoff st p penv).snd.fst = [] := by
  rcases processPayment_shape window cutoff st p penv with
    ⟨o, heq, _⟩ | ⟨job2, hj2, _, hs, hcut, _, _, helig, _⟩
  · rw [heq]
    exact ⟨rfl, rfl⟩
  · rw [hj] at hj2
    simp only [Option.some.injEq] at hj2
    subst hj2
    exact absurd ⟨helig.1, helig.2.1, helig.2.2, hs, hcut⟩ hfail

theorem processJobBadge_skip (badge : String) (st : SyncState) (j : JobV3)
    (payments : List PaymentV3) (cc : List SmContact) (wok : Bool)
    (hfail : payments.filter isPaidPayment = [] ∨ j.badges.contains badge = false) :
    (processJobBadge badge st j payments cc wok).fst = st ∧
    (processJobBadge badge st j payments cc wok).snd.fst = [] := by
  by_cases h1 : j.uuid ∈ st.processedJobs
  · simp [processJobBadge, h1]
  · rcases hfail with hemp | hbad
    · simp [processJobBadge, h1, hemp]
    · by_cases hemp : (payments.filter isPaidPayment).isEmpty
      · simp [processJobBadge, h1, hemp]
      · have hmem : badge ∉ j.badges := by simpa using hbad
        simp [processJobBadge, h1, hemp, hmem]

/-- Claim C4: in the main variant, a payment failing any of the AND-ed
checks (active flag, positive amount, edit date inside the window, job
completed, completion date at or past the cutoff) leaves the state
untouched, makes no Target-side call and enters no dedup set; in the
badge-gated variant, a job whose payments all fail the paid filter (active,
positive amount, non-placeholder timestamp) or whose badge is absent is
likewise skipped with no state change and no call, so the entity is
reconsidered on a later poll. -/
theorem payment_fail_one_check_skipped_no_dedup (window cutoff : Nat)
    (st : SyncState) (p : Payment) (penv : PaymentEnv) (job : Job)
    (badge : String) (stB : SyncState) (jb : JobV3) (ps : List PaymentV3)
    (cc : List SmContact) (wok : Bool)
    (hj : penv.jobRes = some (some job))
    (hfail : ¬(p.active = 1 ∧ 0 < p.amount ∧ window < p.edit_date ∧
      strToLower job.status = "completed" ∧
      cutoff ≤ completionDate job penv.activitiesRes))
    (hfailB : ps.filter isPaidPayment = [] ∨ jb.badges.contains badge = false) :
    (processPayment window cutoff st p penv).fst = st ∧
    (processPayment window cutoff st p penv).snd.fst = [] ∧
    (processJobBadge badge stB jb ps cc wok).fst = stB ∧
    (processJobBadge badge stB jb ps cc wok).snd.fst = [] := by
  obtain ⟨h1, h2⟩ := processPayment_skip_of_failed_check window cutoff st p penv job hj hfail
  obtain ⟨h3, h4⟩ := processJobBadge_skip badge stB jb ps cc wok hfailB
  exact ⟨h1, h2, h3, h4⟩

/-- Claim C4, witness: the fixture payment with the active flag cleared is
skipped by the main variant with no state change and no call, and the
badge-less fixture job with a paid payment is skipped by the badge variant. -/
theorem payment_fail_one_check_skipped_no_dedup_witness :
    (processPayment 50 90 stEmpty paymentInactiveEx paymentEnvEx).fst = stEmpty ∧
    (processPayment 50 90 stEmpty paymentInactiveEx paymentEnvEx).snd.fst = [] ∧
    (processJobBadge "review-badge" stEmpty jobV3NoBadgeEx [paymentV3Ex] [] true).fst =
      stEmpty ∧
    (processJobBadge "review-badge" stEmpty jobV3NoBadgeEx [paymentV3Ex] [] true).snd.fst =
      [] :=
  payment_fail_one_check_skipped_no_dedup 50 90 stEmpty paymentInactiveEx paymentEnvEx
    jobEx "review-badge" stEmpty jobV3NoBadgeEx [paymentV3Ex] [] true
    rfl (by decide) (by decide)

/-! ## Claim C5: one entity failing never aborts the batch -/

theorem processContact_noop (c : SmContact) (env : ContactEnv)
    (hname : ¬(c.email = "" ∧ contactName c = ""))
    (hnomatch : env.searchOk = false ∨ findExisting env.ghlContacts c.email = none)
    (hcr : env.createRes = none) (s : SyncState) :
    (processContact s c env).fst = s := by
  by_cases h1 : c.uuid ∈ s.processedContacts
  · simp [processContact, h1]
  · have hfound : (if c.email ≠ "" ∧ env.searchOk then
        findExisting env.ghlContacts c.email else none) = none := by
      rcases hnomatch with hok | hnm
      · simp [hok]
      · split
        · exact hnm
        · rfl
    simp [processContact, h1, hname, hfound, hcr]

theorem runContacts_append (st : SyncState) (xs ys : List (SmContact × ContactEnv)) :
    runContacts st (xs ++ ys) =
      ((runContacts (runContacts st xs).fst ys).fst,
       (runContacts st xs).snd ++ (runContacts (runContacts st xs).fst ys).snd) := by
  induction xs generalizing st with
  | nil => simp [runContacts]
  | cons hd tl ih =>
    cases hd with
    | mk c env => simp [runContacts, ih, List.append_assoc]

/-- Claim C5, counterexample: in checkNewJobs a per-entity Source fetch
failure is not caught at the entity boundary. With a three-job batch whose
middle job has a throwing payment fetch, the cycle aborts: nothing is
persisted (the state handed to saveState is none), although running the
batch without the failing job persists both other jobs. -/
theorem jobs_batch_aborts_on_entity_failure :
    (runJobs stEmpty [(jobA, jobEnvOkEx), (jobB, jobEnvErrEx), (jobC, jobEnvOkEx)]).fst =
      none ∧
    (runJobs stEmpty [(jobA, jobEnvOkEx), (jobC, jobEnvOkEx)]).fst =
      some ⟨["jc", "ja"], []⟩ := by
  constructor
  · decide
  · decide

/-- Claim C5, amended: in checkNewContacts every per-entity Target and
Source call failure is caught at the entity boundary: a batch containing an
entity whose create call fails yields exactly the dedup state of the batch
without that entity, so all other entities are processed and recorded. In
checkNewJobs only the webhook POST is guarded: a failed webhook never
aborts the iteration (the job is even recorded as processed), but a failed
per-job Source fetch aborts the remaining batch, as the counterexample
shows. -/
theorem batch_entity_failure_isolated
    (st : SyncState) (xs ys : List (SmContact × ContactEnv)) (c : SmContact)
    (cenv : ContactEnv)
    (hname : ¬(c.email = "" ∧ contactName c = ""))
    (hnomatch : cenv.searchOk = false ∨ findExisting cenv.ghlContacts c.email = none)
    (hcr : cenv.createRes = none)
    (j : Job) (jenv : JobEnv) (pl : List Payment) (cs : List SmContact)
    (hpl : jenv.paymentsRes = some pl) (hplne : pl ≠ [])
    (hcs : jenv.companyContacts = some cs) (hwh : jenv.webhookOk = false) :
    (runContacts st (xs ++ (c, cenv) :: ys)).fst = (runContacts st (xs ++ ys)).fst ∧
    (∀ st2, ∃ st3 fx, processJob st2 j jenv = Except.ok (st3, fx) ∧
      j.uuid ∈ st3.processedJobs) := by
  constructor
  · have hnoop := processContact_noop c cenv hname hnomatch hcr
    have h1 : ∀ s, (runContacts s ((c, cenv) :: ys)).fst = (runContacts s ys).fst := by
      intro s
      simp [runContacts, hnoop s]
    calc (runContacts st (xs ++ (c, cenv) :: ys)).fst
        = (runContacts (runContacts st xs).fst ((c, cenv) :: ys)).fst := by
          rw [runContacts_append]
      _ = (runContacts (runContacts st xs).fst ys).fst := h1 _
      _ = (runContacts st (xs ++ ys)).fst := by rw [runContacts_append]
  · intro st2
    by_cases hmem : j.uuid ∈ st2.processedJobs
    · exact ⟨st2, [], by simp [processJob, hmem], hmem⟩
    · have hple : pl.isEmpty = false := by
        cases pl with
        | nil => exact absurd rfl hplne
        | cons a l => rfl
      refine ⟨{ st2 with processedJobs := addKey j.uuid st2.processedJobs },
        [Effect.webhookJob j.uuid (clientEmailOf cs) (jobGcid j) "Invoice Paid"], ?_, ?_⟩
      · simp [processJob, hmem, hpl, hcs, hple]
      · exact mem_addKey_self _ _

/-- Claim C5, witness: a concrete contact batch whose middle entity fails
its create is transparent to the other two entities, and a concrete job
whose webhook fails is still recorded without aborting. -/
theorem batch_entity_failure_isolated_witness :
    (runContacts stEmpty
        ([(contactEx, contactEnvEx)] ++ (contactFailEx, contactEnvFailEx) ::
          [(contactEx3, contactEnvEx)])).fst =
      (runContacts stEmpty ([(contactEx, contactEnvEx)] ++ [(contactEx3, contactEnvEx)])).fst ∧
    (∃ st3 fx, processJob stEmpty jobA jobEnvWebhookFailEx = Except.ok (st3, fx) ∧
      "ja" ∈ st3.processedJobs) := by
  have h := batch_entity_failure_isolated stEmpty
    [(contactEx, contactEnvEx)] [(contactEx3, contactEnvEx)] contactFailEx contactEnvFailEx
    (by decide) (Or.inr (by decide)) rfl
    jobA jobEnvWebhookFailEx [paymentEx]
    [⟨"cc1", "", "", "bob@x.com", "", "", "co1"⟩] rfl (by decide) rfl rfl
  exact ⟨h.1, h.2 stEmpty⟩

/-! ## Claim C6: search before create with normalized email comparison -/

/-- Claim C6: when the search succeeds and an existing Target contact
matches the Source email lower-cased and trimmed on both sides, no create
call is made and the contact uuid is recorded as processed; a create call
is only ever made when a completed search found no such match; a contact
without an email but with a name still reaches the create call; and any
match returned by the comparison satisfies the normalized email equality. -/
theorem search_before_create (st : SyncState) (c : SmContact) (cenv : ContactEnv) :
    (cenv.searchOk = true → c.email ≠ "" →
      (∃ g ∈ cenv.ghlContacts,
        strTrim (strToLower g.email) = strTrim (strToLower c.email)) →
      c.uuid ∉ st.processedContacts →
      hasCreate (processContact st c cenv).snd.fst = false ∧
      c.uuid ∈ (processContact st c cenv).fst.processedContacts) ∧
    (hasCreate (processContact st c cenv).snd.fst = true →
      c.email ≠ "" → cenv.searchOk = true →
      findExisting cenv.ghlContacts c.email = none) ∧
    (c.email = "" → contactName c ≠ "" → c.uuid ∉ st.processedContacts →
      hasCreate (processContact st c cenv).snd.fst = true) ∧
    (∀ g, findExisting cenv.ghlContacts c.email = some g →
      strTrim (strToLower g.email) = strTrim (strToLower c.email)) := by
  refine ⟨?_, ?_, ?_, ?_⟩
  · intro hok hne hex hmem
    have hsome : (findExisting cenv.ghlContacts c.email).isSome := by
      rw [Option.isSome_iff_exists]
      rcases hex with ⟨g, hg, heq⟩
      rcases hfind : findExisting cenv.ghlContacts c.email with _ | g0
      · exfalso
        have := List.find?_eq_none.mp hfind g hg
        rw [heq] at this
        simp at this
      · exact ⟨g0, rfl⟩
    obtain ⟨g0, hfind⟩ := Option.isSome_iff_exists.mp hsome
    have h2 : ¬(c.email = "" ∧ contactName c = "") := fun h => hne h.1
    constructor
    · simp [processContact, hmem, h2, hne, hok, hfind, hasCreate]
    · simp [processContact, hmem, h2, hne, hok, hfind]
      exact mem_addKey_self _ _
  · intro hcr hne hok
    by_cases hmem : c.uuid ∈ st.processedContacts
    · simp [processContact, hmem, hasCreate] at hcr
    · have h2 : ¬(c.email = "" ∧ contactName c = "") := fun h => hne h.1
      rcases hfe : findExisting cenv.ghlContacts c.email with _ | g
      · rfl
      · simp [processContact, hmem, h2, hne, hok, hfe, hasCreate] at hcr
  · intro he hn hmem
    have h2 : ¬(c.email = "" ∧ contactName c = "") := fun h => hn h.2
    rcases hcr : cenv.createRes with _ | cid
    · simp [processContact, hmem, h2, hcr, hasCreate, he, hn]
    · simp [processContact, hmem, h2, hcr, hasCreate, he, hn]
  · intro g hfind
    have := List.find?_some hfind
    exact eq_of_beq this

/-- Claim C6, witness: the fixture contact whose email matches an existing
Target contact up to case and whitespace is not created and is recorded,
and the fixture contact without an email still reaches the create call. -/
theorem search_before_create_witness :
    hasCreate (processContact stEmpty contactEx contactEnvMatchEx).snd.fst = false ∧
    "c1" ∈ (processContact stEmpty contactEx contactEnvMatchEx).fst.processedContacts ∧
    hasCreate (processContact stEmpty contactNoEmailEx contactEnvEx).snd.fst = true := by
  have h1 := (search_before_create stEmpty contactEx contactEnvMatchEx).1 rfl
    (by decide) ⟨⟨"g1", " JANE@x.com "⟩, by decide, by decide⟩ (by decide)
  have h2 := (search_before_create stEmpty contactNoEmailEx contactEnvEx).2.2.1 rfl
    (by decide) (by decide)
  exact ⟨h1.1, h1.2, h2⟩

/-! ## Claim C7: scoping of the dedup sets -/

theorem processContact_state (st : SyncState) (c : SmContact) (cenv : ContactEnv) :
    (processContact st c cenv).fst.processedJobs = st.processedJobs ∧
    (processContact st c cenv).fst.processedContacts ⊆ c.uuid :: st.processedContacts := by
  by_cases h1 : c.uuid ∈ st.processedContacts
  · rw [processContact_mem st c cenv h1]
    exact ⟨rfl, List.subset_cons_self _ _⟩
  · by_cases h2 : c.email = "" ∧ contactName c = ""
    · simp [processContact, h1, h2, addKey_subset_cons, List.subset_cons_self]
    · rcases hfound : (if c.email ≠ "" ∧ cenv.searchOk then
          findExisting cenv.ghlContacts c.email else none) with _ | g
      · rcases hcr : cenv.createRes with _ | cid
        · simp [processContact, h1, h2, hfound, hcr, addKey_subset_cons,
            List.subset_cons_self]
        · simp [processContact, h1, h2, hfound, hcr, addKey_subset_cons,
            List.subset_cons_self]
      · simp [processContact, h1, h2, hfound, addKey_subset_cons,
          List.subset_cons_self]

theorem processPayment_state (window cutoff : Nat) (st : SyncState) (p : Payment)
    (penv : PaymentEnv) :
    (processPayment window cutoff st p penv).fst.processedJobs ⊆
      p.uuid :: st.processedJobs ∧
    (processPayment window cutoff st p penv).fst.processedContacts ⊆
      paymentContactKey penv :: st.processedContacts := by
  rcases processPayment_shape window cutoff st p penv with
    ⟨o, heq, _⟩ | ⟨job, hj, _, _, _, _, _, _, hcase⟩
  · rw [heq]
    exact ⟨List.subset_cons_self _ _, List.subset_cons_self _ _⟩
  · rcases hcase with ⟨_, heq⟩ | ⟨_, heq⟩
    · rw [heq]
      exact ⟨List.subset_cons_self _ _, List.subset_cons_self _ _⟩
    · have hkey : paymentContactKey penv = paymentKey job penv := by
        simp [paymentContactKey, hj]
      rw [heq, hkey]
      constructor
      · exact addKey_subset_cons _ _
      · dsimp only
        split
        · exact addKey_subset_cons _ _
        · exact List.subset_cons_self _ _

/-- Claim C7, counterexample: the payments workflow inserts into the
contacts dedup set. Starting from empty sets, a successful webhook for the
fixture payment leaves the correlation id ghlA, a payment-workflow key,
inside processedContacts. -/
theorem payment_workflow_writes_contacts_set :
    (processPayment 50 90 stEmpty paymentEx paymentEnvEx).fst.processedContacts =
      ["ghlA"] ∧
    stEmpty.processedContacts = [] := by
  constructor
  · decide
  · rfl

/-- Claim C7, amended: the contacts workflow never touches the jobs dedup
set and inserts at most the contact uuid into the contacts set; the
payments workflow inserts at most the payment uuid into the jobs set but
also inserts the payment contact key (correlation id or client email) into
the shared contacts set, so the two workflows are not fully scoped apart:
only the jobs set is insulated from the contacts workflow. -/
theorem dedup_sets_scope (st : SyncState) (c : SmContact) (cenv : ContactEnv)
    (window cutoff : Nat) (p : Payment) (penv : PaymentEnv) :
    (processContact st c cenv).fst.processedJobs = st.processedJobs ∧
    (processContact st c cenv).fst.processedContacts ⊆ c.uuid :: st.processedContacts ∧
    (processPayment window cutoff st p penv).fst.processedJobs ⊆
      p.uuid :: st.processedJobs ∧
    (processPayment window cutoff st p penv).fst.processedContacts ⊆
      paymentContactKey penv :: st.processedContacts := by
  obtain ⟨h1, h2⟩ := processContact_state st c cenv
  obtain ⟨h3, h4⟩ := processPayment_state window cutoff st p penv
  exact ⟨h1, h2, h3, h4⟩

/-! ## Claim C3: atomicity of the state save -/

/-- Claim C3: saveState issues exactly one direct writeFile of the whole
serialized record onto state.json, for every cursor and state; in
particular the operation sequence is not a write-to-temp-then-rename, so
the save is not atomic in the sense the specification demands and a crash
mid-write can leave a partial state.json behind. -/
theorem saveState_single_direct_write (cursor : Nat) (st : SyncState) :
    saveStateOps cursor st = [FsOp.writeFile stateFile (serializeState cursor st)] ∧
    atomicReplace (saveStateOps cursor st) = false := by
  constructor
  · rfl
  · simp [atomicReplace, saveStateOps]

/-! ## Claim C8: temp-file lifetime in the attachment relay -/

/-- Claim C8: in the main variant the per-photo cleanup is commented out:
no exit path of the photo iteration ever unlinks the temporary file, while
the fully successful fixture run does write one, so the temp file survives
the processing of its asset. By contrast, the sibling-variant iteration
unlinks the temp file whenever it wrote one. -/
theorem temp_file_never_deleted :
    (∀ jobUuid filename fileType : String, ∀ env : PhotoEnv,
      hasUnlink (processPhoto jobUuid filename fileType env) = false) ∧
    hasTempWrite (processPhoto "j1" "photo1.jpg" ".jpg" photoEnvOkEx) = true ∧
    processPhoto "j1" "photo1.jpg" ".jpg" photoEnvOkEx =
      [PhotoFx.tempWrite "Uploads/photo1.jpg",
       PhotoFx.postAttachment "j1" "photo1.jpg" ".jpg",
       PhotoFx.putAttachmentFile "a1"] ∧
    (∀ jobUuid companyUuid filename : String, ∀ env : RelayPhotoEnv, ∀ p : String,
      PhotoFx.tempWrite p ∈ relayProcessPhoto jobUuid companyUuid filename env →
      PhotoFx.tempUnlink p ∈ relayProcessPhoto jobUuid companyUuid filename env) := by
  refine ⟨?_, by decide, by decide, ?_⟩
  · intro jobUuid filename fileType env
    obtain ⟨p, f, ct, sz, acc, ar, up⟩ := env
    cases ar <;> simp only [processPhoto] <;> split_ifs <;> rfl
  · intro jobUuid companyUuid filename env p hw
    obtain ⟨hOk, ct, dOk, nOk, aOk⟩ := env
    simp only [relayProcessPhoto] at hw ⊢
    split_ifs at hw ⊢ <;> simp_all

/-! ## Claim C9: a failed search falls through to the create call -/

/-- Claim C9: when the Target search request throws, the routine catches
the error and continues: even though a matching Target contact exists, the
create call is still attempted (a potential duplicate record), the match
branch is never taken, and on a successful create the uuid is recorded. -/
theorem search_error_creates_anyway (st : SyncState) (c : SmContact)
    (cenv : ContactEnv) (g : GhlContact)
    (hmem : c.uuid ∉ st.processedContacts) (hne : c.email ≠ "")
    (hfail : cenv.searchOk = false)
    (hg : g ∈ cenv.ghlContacts)
    (hmatch : strTrim (strToLower g.email) = strTrim (strToLower c.email)) :
    hasCreate (processContact st c cenv).snd.fst = true ∧
    (processContact st c cenv).snd.snd ≠ Outcome.skippedExisting ∧
    (cenv.createRes.isSome = true →
      c.uuid ∈ (processContact st c cenv).fst.processedContacts) := by
  have h2 : ¬(c.email = "" ∧ contactName c = "") := fun h => hne h.1
  rcases hcr : cenv.createRes with _ | cid
  · refine ⟨?_, ?_, ?_⟩
    · simp [processContact, hmem, h2, hfail, hcr, hasCreate, hne]
    · simp [processContact, hmem, h2, hfail, hcr]
    · intro h
      simp [hcr] at h
  · refine ⟨?_, ?_, ?_⟩
    · simp [processContact, hmem, h2, hfail, hcr, hasCreate, hne]
    · simp [processContact, hmem, h2, hfail, hcr]
    · intro _
      simp [processContact, hmem, h2, hfail, hcr]
      exact mem_addKey_self _ _

/-- Claim C9, witness: with a throwing search, an existing matching Target
contact and a succeeding create, the fixture contact is created anyway and
recorded as processed. -/
theorem search_error_creates_anyway_witness :
    hasCreate (processContact stEmpty contactEx contactEnvSearchErrEx).snd.fst = true ∧
    "c1" ∈ (processContact stEmpty contactEx contactEnvSearchErrEx).fst.processedContacts := by
  have h := search_error_creates_anyway stEmpty contactEx contactEnvSearchErrEx
    ⟨"g9", "jane@x.com"⟩ (by decide) (by decide) rfl (by decide) (by decide)
  exact ⟨h.1, h.2.2 rfl⟩

/-! ## Claim C10: the intake debounce map is mutated before Source work -/

theorem mapGet_mapSet_self (m : List (String × Nat)) (k : String) (v : Nat) :
    mapGet (mapSet m k v) k = some v := by
  simp [mapGet, mapSet]

/-- Claim C10: with valid fields and no prior debounce entry, a request
whose queue lookup fails is answered with the 500 error, yet the debounce
map has already recorded the correlation id; an identical retry against the
mutated map within the five-second window is answered with the duplicate
skip and performs no Source-side work at all, under any environment. -/
theorem intake_debounce_recorded_before_work
    (m : List (String × Nat)) (now now2 : Nat) (r : JobRequest)
    (env env2 : IntakeEnv)
    (hf1 : r.firstName ≠ "") (hf2 : r.lastName ≠ "") (hf3 : r.email ≠ "")
    (hf4 : r.ghlContactId ≠ "")
    (hnodup : mapGet m r.ghlContactId = none)
    (hq : env.queueUuid = none)
    (hnz : now ≠ 0) (hwin : now2 - now < debounceMs) :
    ghlCreateJob m now r env = (mapSet m r.ghlContactId now, IntakeResp.serverError, []) ∧
    ghlCreateJob (mapSet m r.ghlContactId now) now2 r env2 =
      (mapSet m r.ghlContactId now, IntakeResp.skippedDuplicate, []) := by
  constructor
  · simp [ghlCreateJob, hf1, hf2, hf3, hf4, hnodup, ghlCreateJobWork, hq]
  · simp [ghlCreateJob, hf1, hf2, hf3, hf4, mapGet_mapSet_self, hnz, hwin]

/-- Claim C10, witness: the fixture request against a failing queue lookup
returns the 500 error with the map mutated, and its retry two seconds later
is skipped as a duplicate even with a fully healthy environment. -/
theorem intake_debounce_recorded_before_work_witness :
    ghlCreateJob [] 1000 reqEx intakeEnvQFailEx =
      (mapSet [] "ghlX1" 1000, IntakeResp.serverError, []) ∧
    ghlCreateJob (mapSet [] "ghlX1" 1000) 3000 reqEx intakeEnvOkEx =
      (mapSet [] "ghlX1" 1000, IntakeResp.skippedDuplicate, []) :=
  intake_debounce_recorded_before_work [] 1000 3000 reqEx intakeEnvQFailEx intakeEnvOkEx
    (by decide) (by decide) (by decide) (by decide) rfl rfl (by decide) (by decide)

end IntegWithGhl
